import Mathlib

/-!
# Monitoring-GO: persistence & query engine, shallow embedding

A shallow embedding of the Go monitoring server's persistence and query
core (package `server`: `storeMonitoringData`, `getFilteredClientHistory`,
`getClientStatuses`, `calculateSuccessRate`, `getLastError`,
`getClientHistory`, `getAnomalies`, `cleanupRoutine`).

Modelling conventions:
* The SQLite database is a pure state: a list of `clients` rows and a list
  of `client_history` rows plus the AUTOINCREMENT counter.
* `time.Time` instants are integers counting seconds (so the literal
  thresholds of the code become `60`, `86400`, `7*86400`); every
  occurrence of `time.Now()` in the Go code becomes an explicit instant
  parameter, one parameter per occurrence, in source order.
* Go `float64` quantities (latencies, rates) are modelled as exact
  rationals `ℚ`.
* `json.Marshal` / `json.Unmarshal` round-tripping of a structurally
  valid `MonitoringData` value is modelled as the identity: a row's
  `data` column holds the `MonitoringData` value itself.
* A `db.Query`/`db.QueryRow` infrastructure failure is modelled, where a
  claim needs it, by an explicit boolean `qfail` parameter: `true` means
  the call against the store failed.
-/

/-- `TimingMetrics` from models.go. -/
structure TimingMetrics where
  dns_lookup_ms : ℚ
  tcp_connect_ms : ℚ
  tls_handshake_ms : ℚ
  request_sent_ms : ℚ
  first_byte_ms : ℚ
  total_response_ms : ℚ
deriving DecidableEq, Repr, Inhabited

/-- `ResponseDetails` from models.go (header map as an association list). -/
structure ResponseDetails where
  status_code : Int
  status_text : String
  headers_received : List (String × String)
  body_size : Int
  body_preview : String
deriving DecidableEq, Repr, Inhabited

/-- `NetworkInfo` from models.go. -/
structure NetworkInfo where
  local_ip : String
  remote_ip : String
  connection_reused : Bool
  protocol_version : String
deriving DecidableEq, Repr, Inhabited

/-- `ErrorDetails` from models.go. -/
structure ErrorDetails where
  has_error : Bool
  error_type : String
  error_message : String
  retry_count : Int
deriving DecidableEq, Repr, Inhabited

/-- `MonitoringData` from models.go: one probe report. -/
structure MonitoringData where
  client_id : String
  timestamp : String
  target_url : String
  request_details : List (String × String)
  timing_metrics : TimingMetrics
  response_details : ResponseDetails
  network_info : NetworkInfo
  error_details : ErrorDetails
deriving DecidableEq, Repr, Inhabited

/-- One row of the `clients` table (schema in `initDatabase`). -/
structure ClientRow where
  id : String
  name : String
  target_url : String
  last_seen : Int
  last_data : MonitoringData
deriving DecidableEq, Repr, Inhabited

/-- One row of the `client_history` table (schema in `initDatabase`). -/
structure HistoryRow where
  id : Nat
  client_id : String
  timestamp : Int
  success : Bool
  latency : ℚ
  status_code : Int
  error_type : String
  data : MonitoringData
deriving DecidableEq, Repr, Inhabited

/-- The SQLite database state: the two relations plus the AUTOINCREMENT
counter for `client_history.id`. -/
structure DB where
  clients : List ClientRow
  history : List HistoryRow
  nextId : Nat
deriving DecidableEq, Repr, Inhabited

/-- `INSERT OR REPLACE INTO clients`: at most one row per primary key
`id`; the fresh row replaces any existing row with the same id. -/
def upsertClient (row : ClientRow) (clients : List ClientRow) : List ClientRow :=
  row :: clients.filter (fun c => c.id ≠ row.id)

/-- `storeMonitoringData` (part_000, lines 51–80).

The Go body calls `time.Now()` twice: once inside the `clients` upsert
(line 59) and once inside the `client_history` insert (line 77).  The two
successive clock samples are the explicit parameters `t1` and `t2`, in
source order (a monotone clock gives `t1 ≤ t2`, not `t1 = t2`).

The `clients` row upserted by the first write (part_000, lines 56–59):
name defaults to the client id, `last_seen` is the first clock sample. -/
def ingestClientRow (t1 : Int) (data : MonitoringData) : ClientRow :=
  { id := data.client_id
    name := data.client_id
    target_url := data.target_url
    last_seen := t1
    last_data := data }

/-- The `client_history` row appended by `storeMonitoringData`
(part_000, lines 65–77): `success = !HasError`, `latency =
TotalResponseMs`, `status_code = StatusCode`, `error_type` only set when
`HasError`. -/
def ingestHistoryRow (t2 : Int) (data : MonitoringData) (nextId : Nat) : HistoryRow :=
  { id := nextId
    client_id := data.client_id
    timestamp := t2
    success := !data.error_details.has_error
    latency := data.timing_metrics.total_response_ms
    status_code := data.response_details.status_code
    error_type := if data.error_details.has_error then data.error_details.error_type else ""
    data := data }

/-- `storeMonitoringData` itself: first the `clients` upsert (stamped
with the first `time.Now()` sample `t1`), then the `client_history`
append (stamped with the second sample `t2`). -/
def storeMonitoringData (t1 t2 : Int) (data : MonitoringData) (db : DB) : DB :=
  { clients := upsertClient (ingestClientRow t1 data) db.clients
    history := db.history ++ [ingestHistoryRow t2 data db.nextId]
    nextId := db.nextId + 1 }

/-- The status clause of `getFilteredClientHistory` (part_000, lines
93–97): `if ... == "success" { AND success = 1 } else if ... == "error"
{ AND success = 0 }`, no clause otherwise. -/
def statusPred (filter : String) (success : Bool) : Bool :=
  if filter = "success" then success
  else if filter = "error" then !success
  else true

/-- `HistoryFilterOptions` from models.go. -/
structure HistoryFilterOptions where
  clientID : String
  duration : Int
  sortBy : String
  sortOrder : String
  limit : Int
  statusFilter : String
  minLatency : ℚ
  maxLatency : ℚ
deriving DecidableEq, Repr, Inhabited

/-- The WHERE predicate `getFilteredClientHistory` assembles
(part_000, lines 87–106): client match, window, optional status clause,
optional inclusive latency bounds added only when the bound is `> 0`. -/
def rowPred (now : Int) (o : HistoryFilterOptions) (h : HistoryRow) : Bool :=
  (h.client_id = o.clientID && now - o.duration < h.timestamp)
  && statusPred o.statusFilter h.success
  && (if o.minLatency > 0 then o.minLatency ≤ h.latency else true)
  && (if o.maxLatency > 0 then h.latency ≤ o.maxLatency else true)

/-- The ORDER BY column resolution of `getFilteredClientHistory`
(part_000, lines 108–116): a `switch` whose only cases are `latency`,
`status_code` and `error_type`; everything else keeps the initial
`timestamp`. -/
def resolveOrderBy (sortBy : String) : String :=
  if sortBy = "latency" then "latency"
  else if sortBy = "status_code" then "status_code"
  else if sortBy = "error_type" then "error_type"
  else "timestamp"

/-- Row comparison on one of the four order-by columns (ascending). -/
def colLe (col : String) (a b : HistoryRow) : Bool :=
  if col = "latency" then a.latency ≤ b.latency
  else if col = "status_code" then a.status_code ≤ b.status_code
  else if col = "error_type" then a.error_type ≤ b.error_type
  else a.timestamp ≤ b.timestamp

/-- The SQL text `getFilteredClientHistory` assembles, clause by clause
exactly as the Go code appends them (part_000, lines 87–128). -/
def buildFilteredQuery (o : HistoryFilterOptions) : String :=
  let q := "SELECT data FROM client_history WHERE client_id = ? AND timestamp > ?"
  let q := if o.statusFilter = "success" then q ++ " AND success = 1"
           else if o.statusFilter = "error" then q ++ " AND success = 0"
           else q
  let q := if o.minLatency > 0 then q ++ " AND latency >= ?" else q
  let q := if o.maxLatency > 0 then q ++ " AND latency <= ?" else q
  let q := q ++ " ORDER BY " ++ resolveOrderBy o.sortBy
  let q := if o.sortOrder = "desc" then q ++ " DESC" else q ++ " ASC"
  if o.limit > 0 then q ++ " LIMIT ?" else q

/-- The row sequence produced by `getFilteredClientHistory`'s query:
filter by the assembled WHERE predicate, order by the resolved column
(descending only when `sortOrder == "desc"`), then apply LIMIT when
`limit > 0`. -/
def getFilteredRows (now : Int) (o : HistoryFilterOptions) (db : DB) : List HistoryRow :=
  let rows := db.history.filter (rowPred now o)
  let sorted :=
    if o.sortOrder = "desc"
    then rows.insertionSort (fun a b => colLe (resolveOrderBy o.sortBy) b a = true)
    else rows.insertionSort (fun a b => colLe (resolveOrderBy o.sortBy) a b = true)
  if o.limit > 0 then sorted.take o.limit.toNat else sorted

/-- `getFilteredClientHistory` (part_000, lines 83–150): the `data`
payloads of the selected rows, decoded (round-trip modelled as
identity). -/
def getFilteredClientHistory (now : Int) (o : HistoryFilterOptions) (db : DB) :
    List MonitoringData :=
  (getFilteredRows now o db).map (fun h => h.data)

/-- `calculateSuccessRate` (part_000, lines 204–219): over the rows of
the client in the trailing 24-hour window, `0` when there are none,
`(success/total)*100` otherwise.  `now` is SQLite's `datetime('now')`. -/
def calculateSuccessRate (now : Int) (clientID : String) (db : DB) : ℚ :=
  let rows := db.history.filter
    (fun h => h.client_id = clientID && now - 24 * 3600 < h.timestamp)
  let total := rows.length
  let success := (rows.filter (fun h => h.success)).length
  if total = 0 then 0 else ((success : ℚ) / (total : ℚ)) * 100

/-- `getLastError` (part_000, lines 222–238): the `error_type` and
`timestamp` of the most recent failed row for the client; the sentinel
`("", 0)` (empty type, zero time) when there is none. -/
def getLastError (clientID : String) (db : DB) : String × Int :=
  let rows := db.history.filter (fun h => h.client_id = clientID && !h.success)
  let sorted := rows.insertionSort (fun a b => b.timestamp ≤ a.timestamp)
  match sorted.head? with
  | none => ("", 0)
  | some h => (h.error_type, h.timestamp)

/-- `ClientStatus` from models.go (display structure). -/
structure ClientStatus where
  id : String
  name : String
  targetURL : String
  lastSeen : Int
  isOnline : Bool
  lastLatency : ℚ
  lastStatusCode : Int
  successRate : ℚ
  lastError : String
  lastErrorTime : Int
  timingBreakdown : TimingMetrics
  networkInfo : NetworkInfo
deriving DecidableEq, Repr, Inhabited

/-- `getClientStatuses` (part_000, lines 152–202): clients ordered by
`last_seen DESC`, each mapped to its derived status; `now` is the single
`time.Now()` captured before the loop, and `IsOnline` is
`now.Sub(lastSeen) < 60*time.Second`. -/
def getClientStatuses (now : Int) (db : DB) : List ClientStatus :=
  let sorted := db.clients.insertionSort (fun a b => b.last_seen ≤ a.last_seen)
  sorted.map (fun c =>
    { id := c.id
      name := c.name
      targetURL := c.target_url
      lastSeen := c.last_seen
      isOnline := now - c.last_seen < 60
      lastLatency := c.last_data.timing_metrics.total_response_ms
      lastStatusCode := c.last_data.response_details.status_code
      successRate := calculateSuccessRate now c.id db
      lastError := (getLastError c.id db).1
      lastErrorTime := (getLastError c.id db).2
      timingBreakdown := c.last_data.timing_metrics
      networkInfo := c.last_data.network_info })

/-- `getClientHistory` (part_000, lines 241–268): rows of the client in
the window, ordered by `timestamp ASC`, `data` payloads decoded. -/
def getClientHistory (now : Int) (clientID : String) (duration : Int) (db : DB) :
    List MonitoringData :=
  let rows := db.history.filter
    (fun h => h.client_id = clientID && now - duration < h.timestamp)
  (rows.insertionSort (fun a b => a.timestamp ≤ b.timestamp)).map (fun h => h.data)

/-- The WHERE predicate of `getAnomalies` (part_000, line 276):
`client_id = ? AND (success = 0 OR latency > ?) AND timestamp > ?`. -/
def anomalyPred (now : Int) (clientID : String) (thresholdMs : ℚ) (duration : Int)
    (h : HistoryRow) : Bool :=
  h.client_id = clientID && (!h.success || thresholdMs < h.latency)
    && now - duration < h.timestamp

/-- The row sequence of `getAnomalies` (part_000, lines 271–306):
matching rows ordered by `timestamp DESC`, truncated when `limit > 0`. -/
def getAnomaliesRows (now : Int) (clientID : String) (thresholdMs : ℚ) (duration : Int)
    (limit : Int) (db : DB) : List HistoryRow :=
  let rows := db.history.filter (anomalyPred now clientID thresholdMs duration)
  let sorted := rows.insertionSort (fun a b => b.timestamp ≤ a.timestamp)
  if limit > 0 then sorted.take limit.toNat else sorted

/-- `getAnomalies`: the decoded `data` payloads of its row sequence. -/
def getAnomalies (now : Int) (clientID : String) (thresholdMs : ℚ) (duration : Int)
    (limit : Int) (db : DB) : List MonitoringData :=
  (getAnomaliesRows now clientID thresholdMs duration limit db).map (fun h => h.data)

/-- One tick of `cleanupRoutine` (part_001, lines 126–142): the bulk
`DELETE FROM client_history WHERE timestamp < datetime('now','-7 days')`.
Only `client_history` is touched. -/
def cleanupSweep (now : Int) (db : DB) : DB :=
  { db with history := db.history.filter (fun h => !(h.timestamp < now - 7 * 86400)) }

/-! ## Concrete fixtures used by witnesses and counterexamples -/

/-- A structurally valid successful report. -/
def dataEx : MonitoringData :=
  { client_id := "agent-1"
    timestamp := "2026-01-01T00:00:00Z"
    target_url := "http://example.org"
    request_details := []
    timing_metrics :=
      { dns_lookup_ms := 1, tcp_connect_ms := 2, tls_handshake_ms := 3,
        request_sent_ms := 4, first_byte_ms := 5, total_response_ms := 80 }
    response_details :=
      { status_code := 200, status_text := "OK", headers_received := [],
        body_size := 3, body_preview := "ok" }
    network_info :=
      { local_ip := "127.0.0.1", remote_ip := "10.0.0.1",
        connection_reused := false, protocol_version := "HTTP/1.1" }
    error_details :=
      { has_error := false, error_type := "", error_message := "", retry_count := 0 } }

/-- The empty store right after `initDatabase`. -/
def dbEmpty : DB := { clients := [], history := [], nextId := 1 }

/-- A history row for client `agent-1`. -/
def mkRow (i : Nat) (t : Int) (succ : Bool) (lat : ℚ) : HistoryRow :=
  { id := i, client_id := "agent-1", timestamp := t, success := succ, latency := lat,
    status_code := if succ then 200 else 0,
    error_type := if succ then "" else "timeout", data := dataEx }

/-- A `clients` row. -/
def mkClient (id : String) (seen : Int) : ClientRow :=
  { id := id, name := id, target_url := "http://example.org", last_seen := seen,
    last_data := dataEx }

/-- Ten in-window rows for `agent-1`: seven successes, three failures. -/
def dbRate : DB :=
  { clients := []
    history :=
      [mkRow 1 99001 true 50, mkRow 2 99002 true 51, mkRow 3 99003 true 52,
       mkRow 4 99004 true 53, mkRow 5 99005 true 54, mkRow 6 99006 true 55,
       mkRow 7 99007 true 56, mkRow 8 99008 false 1200, mkRow 9 99009 false 1300,
       mkRow 10 99010 false 1400]
    nextId := 11 }

/-- Four rows for `agent-1`, mixing successes, failures and latencies. -/
def dbMix : DB :=
  { clients := []
    history := [mkRow 1 50 false 200, mkRow 2 60 true 300, mkRow 3 70 false 600,
                mkRow 4 80 true 50]
    nextId := 5 }

/-- The failed row of `dbMix` whose latency lies in `[100, 500]`. -/
def rMix : HistoryRow := mkRow 1 50 false 200

/-! ## Generic facts about the embedded operations -/

theorem getFilteredRows_mem (now : Int) (o : HistoryFilterOptions) (db : DB)
    (r : HistoryRow) (hr : r ∈ getFilteredRows now o db) :
    r ∈ db.history ∧ rowPred now o r = true := by
  simp only [getFilteredRows] at hr
  split at hr
  · split at hr
    · exact List.mem_filter.mp ((List.mem_insertionSort _).mp (List.mem_of_mem_take hr))
    · exact List.mem_filter.mp ((List.mem_insertionSort _).mp (List.mem_of_mem_take hr))
  · split at hr
    · exact List.mem_filter.mp ((List.mem_insertionSort _).mp hr)
    · exact List.mem_filter.mp ((List.mem_insertionSort _).mp hr)

theorem getFilteredRows_complete (now : Int) (o : HistoryFilterOptions) (db : DB)
    (r : HistoryRow) (hlim : ¬ o.limit > 0) (hmem : r ∈ db.history)
    (hp : rowPred now o r = true) : r ∈ getFilteredRows now o db := by
  simp only [getFilteredRows, if_neg hlim]
  split
  · exact (List.mem_insertionSort _).mpr (List.mem_filter.mpr ⟨hmem, hp⟩)
  · exact (List.mem_insertionSort _).mpr (List.mem_filter.mpr ⟨hmem, hp⟩)

/-! ## C1: the two ingest timestamps -/

/-- C1 (counterexample): `storeMonitoringData` samples the clock once
per write, so a single call whose two `time.Now()` calls return `0` and
`1` stores `last_seen = 0` on the `clients` row but `timestamp = 1` on
the `client_history` row — the two are not one ingest timestamp captured
at call entry. -/
theorem storeMonitoringData_resampled_counterexample :
    ((storeMonitoringData 0 1 dataEx dbEmpty).clients.head?.map ClientRow.last_seen)
        = some 0
  ∧ ((storeMonitoringData 0 1 dataEx dbEmpty).history.getLast?.map HistoryRow.timestamp)
        = some 1
  ∧ (0 : Int) ≠ 1 := by
  refine ⟨rfl, rfl, by decide⟩

/-- C1 (amended): `Client.last_seen` records the first `time.Now()`
sample and the new History Entry's `timestamp` the second, independently
taken sample; the two agree exactly when the clock returns the same
instant for both calls, not because a single ingest timestamp is
captured at call entry. -/
theorem storeMonitoringData_timestamp_samples (t1 t2 : Int) (data : MonitoringData)
    (db : DB) :
    ((storeMonitoringData t1 t2 data db).clients.head?.map ClientRow.last_seen)
        = some t1
  ∧ ((storeMonitoringData t1 t2 data db).history.getLast?.map HistoryRow.timestamp)
        = some t2 := by
  refine ⟨rfl, ?_⟩
  simp [storeMonitoringData, List.getLast?_concat, ingestHistoryRow]

/-! ## C2: ingest followed by history read -/

/-- C2: after `storeMonitoringData data` succeeds, `getClientHistory`
over a window that covers the ingest instant returns an entry whose
timing, response and error fields equal those of `data`. -/
theorem submitReport_getHistory_contains (t1 t2 now duration : Int)
    (data : MonitoringData) (db : DB) (hwin : now - duration < t2) :
    ∃ d ∈ getClientHistory now data.client_id duration (storeMonitoringData t1 t2 data db),
      d.timing_metrics = data.timing_metrics ∧
      d.response_details = data.response_details ∧
      d.error_details = data.error_details := by
  refine ⟨data, ?_, rfl, rfl, rfl⟩
  have hrow : ingestHistoryRow t2 data db.nextId ∈
      (db.history ++ [ingestHistoryRow t2 data db.nextId]).filter
        (fun h => h.client_id = data.client_id && now - duration < h.timestamp) := by
    refine List.mem_filter.mpr ⟨List.mem_append_right _ (List.mem_singleton_self _), ?_⟩
    simp [ingestHistoryRow, hwin]
  simpa [getClientHistory, storeMonitoringData] using
    List.mem_map_of_mem (fun h : HistoryRow => h.data)
      ((List.mem_insertionSort
        (fun a b : HistoryRow => a.timestamp ≤ b.timestamp)).mpr hrow)

/-- Witness for C2 at a concrete ingest. -/
theorem submitReport_getHistory_contains_witness :
    ∃ d ∈ getClientHistory 10 dataEx.client_id 100 (storeMonitoringData 5 6 dataEx dbEmpty),
      d.timing_metrics = dataEx.timing_metrics ∧
      d.response_details = dataEx.response_details ∧
      d.error_details = dataEx.error_details :=
  submitReport_getHistory_contains 5 6 10 100 dataEx dbEmpty (by decide)

/-! ## C3: status filter and latency bounds -/

/-- C3: every row returned by the filtered query respects the status
filter (`error` keeps only failures, `success` only successes) and, for
each latency bound that is strictly positive, the inclusive bound on the
`latency` column; when both bounds are `0` and no LIMIT applies, the
latency places no restriction at all: membership is exactly the base
window predicate plus the status clause. -/
theorem getFilteredHistory_status_latency_bounds (now : Int) (o : HistoryFilterOptions)
    (db : DB) (r : HistoryRow) :
    (r ∈ getFilteredRows now o db →
        ((o.statusFilter = "error" → r.success = false)
       ∧ (o.statusFilter = "success" → r.success = true)
       ∧ (0 < o.minLatency → o.minLatency ≤ r.latency)
       ∧ (0 < o.maxLatency → r.latency ≤ o.maxLatency)))
  ∧ (o.minLatency = 0 → o.maxLatency = 0 → o.limit = 0 →
       (r ∈ getFilteredRows now o db ↔
          r ∈ db.history ∧ r.client_id = o.clientID ∧ now - o.duration < r.timestamp
            ∧ statusPred o.statusFilter r.success = true)) := by
  constructor
  · intro hr
    obtain ⟨-, hp⟩ := getFilteredRows_mem now o db r hr
    simp only [rowPred, Bool.and_eq_true, decide_eq_true_eq] at hp
    obtain ⟨⟨⟨⟨hcid, hts⟩, hstat⟩, hmin⟩, hmax⟩ := hp
    refine ⟨?_, ?_, ?_, ?_⟩
    · intro he
      rw [he] at hstat
      simpa [statusPred] using hstat
    · intro he
      rw [he] at hstat
      simpa [statusPred] using hstat
    · intro hm
      rw [if_pos hm] at hmin
      simpa using hmin
    · intro hm
      rw [if_pos hm] at hmax
      simpa using hmax
  · intro hmin hmax hlim
    have hl : ¬ o.limit > 0 := by simp [hlim]
    constructor
    · intro hr
      obtain ⟨hmem, hp⟩ := getFilteredRows_mem now o db r hr
      simp only [rowPred, hmin, hmax, lt_irrefl, if_false, Bool.and_true,
        Bool.and_eq_true, decide_eq_true_eq] at hp
      exact ⟨hmem, hp.1.1, hp.1.2, hp.2⟩
    · rintro ⟨hmem, hcid, hts, hstat⟩
      refine getFilteredRows_complete now o db r hl hmem ?_
      simp [rowPred, hmin, hmax, hcid, hts, hstat]

/-- Witness for C3: in `dbMix` with `statusFilter = "error"`,
`minLatency = 100`, `maxLatency = 500`, the returned row `rMix` is a
failure with latency inside the bounds. -/
theorem getFilteredHistory_status_latency_bounds_witness :
    rMix.success = false ∧ (100 : ℚ) ≤ rMix.latency ∧ rMix.latency ≤ (500 : ℚ) := by
  have h := (getFilteredHistory_status_latency_bounds 100
      { clientID := "agent-1", duration := 1000, sortBy := "timestamp",
        sortOrder := "asc", limit := 0, statusFilter := "error",
        minLatency := 100, maxLatency := 500 }
      dbMix rMix).1 (by decide)
  exact ⟨h.1 rfl, h.2.2.1 (by decide), h.2.2.2 (by decide)⟩

/-! ## C10: unrecognized status filters behave like "all" -/

/-- C10: any `statusFilter` other than `"success"` and `"error"` adds no
success clause, so the query behaves exactly as with
`statusFilter = "all"`. -/
theorem statusFilter_fallthrough (now : Int) (o : HistoryFilterOptions) (db : DB)
    (h1 : o.statusFilter ≠ "success") (h2 : o.statusFilter ≠ "error") :
    getFilteredClientHistory now o db =
      getFilteredClientHistory now { o with statusFilter := "all" } db := by
  have hp : rowPred now o = rowPred now { o with statusFilter := "all" } := by
    funext h
    simp [rowPred, statusPred, h1, h2]
  simp [getFilteredClientHistory, getFilteredRows, hp]

/-- Witness for C10 with the undocumented filter value `"bogus"`. -/
theorem statusFilter_fallthrough_witness :
    getFilteredClientHistory 100
        { clientID := "agent-1", duration := 1000, sortBy := "timestamp",
          sortOrder := "asc", limit := 0, statusFilter := "bogus",
          minLatency := 0, maxLatency := 0 } dbMix =
      getFilteredClientHistory 100
        { clientID := "agent-1", duration := 1000, sortBy := "timestamp",
          sortOrder := "asc", limit := 0, statusFilter := "all",
          minLatency := 0, maxLatency := 0 } dbMix :=
  statusFilter_fallthrough 100
    { clientID := "agent-1", duration := 1000, sortBy := "timestamp",
      sortOrder := "asc", limit := 0, statusFilter := "bogus",
      minLatency := 0, maxLatency := 0 } dbMix (by decide) (by decide)

/-! ## C4: sort column allow-list and order direction -/

theorem colLe_total (col : String) (a b : HistoryRow) :
    colLe col a b = true ∨ colLe col b a = true := by
  unfold colLe
  split_ifs <;> simp only [decide_eq_true_eq] <;> exact le_total _ _

theorem colLe_trans (col : String) (a b c : HistoryRow) (h1 : colLe col a b = true)
    (h2 : colLe col b c = true) : colLe col a c = true := by
  unfold colLe at h1 h2 ⊢
  split_ifs at h1 h2 ⊢ <;> simp only [decide_eq_true_eq] at h1 h2 ⊢ <;>
    exact le_trans h1 h2

/-- C4: the ORDER BY column is always one of the four allow-listed
columns; a `sortBy` outside the four recognized tokens resolves to
`timestamp`; the assembled query text depends on `sortBy` only through
this resolution (no caller-supplied string reaches the text); and any
`sortOrder` other than `"desc"` yields rows ascending in the resolved
column. -/
theorem getFilteredHistory_sort_allowlist (now : Int) (o : HistoryFilterOptions)
    (db : DB) :
    resolveOrderBy o.sortBy ∈
        (["timestamp", "latency", "status_code", "error_type"] : List String)
  ∧ (o.sortBy ∉ (["timestamp", "latency", "status_code", "error_type"] : List String) →
      resolveOrderBy o.sortBy = "timestamp")
  ∧ (∀ s u : String, resolveOrderBy s = resolveOrderBy u →
      buildFilteredQuery { o with sortBy := s } = buildFilteredQuery { o with sortBy := u })
  ∧ (o.sortOrder ≠ "desc" →
      List.Pairwise (fun a b => colLe (resolveOrderBy o.sortBy) a b = true)
        (getFilteredRows now o db)) := by
  refine ⟨?_, ?_, ?_, ?_⟩
  · unfold resolveOrderBy
    split_ifs <;> simp
  · intro h
    simp only [List.mem_cons, List.not_mem_nil, or_false, not_or] at h
    obtain ⟨-, h2, h3, h4⟩ := h
    simp [resolveOrderBy, h2, h3, h4]
  · intro s u h
    simp only [buildFilteredQuery]
    rw [h]
  · intro hdesc
    haveI : IsTotal HistoryRow (fun a b => colLe (resolveOrderBy o.sortBy) a b = true) :=
      ⟨fun a b => colLe_total _ a b⟩
    haveI : IsTrans HistoryRow (fun a b => colLe (resolveOrderBy o.sortBy) a b = true) :=
      ⟨fun a b c => colLe_trans _ a b c⟩
    have hs := List.sorted_insertionSort
      (fun a b => colLe (resolveOrderBy o.sortBy) a b = true)
      (db.history.filter (rowPred now o))
    simp only [getFilteredRows, if_neg hdesc]
    split
    · exact List.Pairwise.sublist (List.take_sublist _ _) hs
    · exact hs

/-- Witness for C4: the unrecognized token `"garbage"` with an
ascending order request. -/
theorem getFilteredHistory_sort_allowlist_witness :
    resolveOrderBy "garbage" = "timestamp"
  ∧ List.Pairwise
      (fun a b => colLe (resolveOrderBy "garbage") a b = true)
      (getFilteredRows 100
        { clientID := "agent-1", duration := 1000, sortBy := "garbage",
          sortOrder := "asc", limit := 0, statusFilter := "all",
          minLatency := 0, maxLatency := 0 } dbMix) :=
  ⟨(getFilteredHistory_sort_allowlist 100
      { clientID := "agent-1", duration := 1000, sortBy := "garbage",
        sortOrder := "asc", limit := 0, statusFilter := "all",
        minLatency := 0, maxLatency := 0 } dbMix).2.1 (by decide),
   (getFilteredHistory_sort_allowlist 100
      { clientID := "agent-1", duration := 1000, sortBy := "garbage",
        sortOrder := "asc", limit := 0, statusFilter := "all",
        minLatency := 0, maxLatency := 0 } dbMix).2.2.2 (by decide)⟩

/-! ## C5: rolling 24-hour success rate -/

/-- C5: over the fixed trailing 24-hour window, `calculateSuccessRate`
returns `0` when the client has no in-window rows and exactly
`100 * successes / total` otherwise. -/
theorem calculateSuccessRate_spec (now : Int) (cid : String) (db : DB) :
    (db.history.filter (fun h => h.client_id = cid && now - 24 * 3600 < h.timestamp) = [] →
        calculateSuccessRate now cid db = 0)
  ∧ (db.history.filter (fun h => h.client_id = cid && now - 24 * 3600 < h.timestamp) ≠ [] →
        calculateSuccessRate now cid db =
          100 * (((db.history.filter
                (fun h => h.client_id = cid && now - 24 * 3600 < h.timestamp)).filter
                  (fun h => h.success)).length : ℚ) /
            ((db.history.filter
                (fun h => h.client_id = cid && now - 24 * 3600 < h.timestamp)).length : ℚ)) := by
  constructor
  · intro h
    simp only [calculateSuccessRate]
    rw [h]
    simp
  · intro h
    have hlen : (db.history.filter
        (fun h => h.client_id = cid && now - 24 * 3600 < h.timestamp)).length ≠ 0 :=
      fun hc => h (List.length_eq_zero.mp hc)
    have hq : ((db.history.filter
        (fun h => h.client_id = cid && now - 24 * 3600 < h.timestamp)).length : ℚ) ≠ 0 :=
      Nat.cast_ne_zero.mpr hlen
    simp only [calculateSuccessRate, if_neg hlen]
    field_simp
    ring

/-- Witness for C5: seven successes and three failures in the window
give exactly `100 * 7 / 10`. -/
theorem calculateSuccessRate_spec_witness :
    calculateSuccessRate 100000 "agent-1" dbRate =
      100 * (((dbRate.history.filter
            (fun h => h.client_id = "agent-1" && (100000 : Int) - 24 * 3600 < h.timestamp)).filter
              (fun h => h.success)).length : ℚ) /
        ((dbRate.history.filter
            (fun h => h.client_id = "agent-1" && (100000 : Int) - 24 * 3600 < h.timestamp)).length : ℚ) :=
  (calculateSuccessRate_spec 100000 "agent-1" dbRate).2 (by decide)

/-! ## C6: online classification boundary -/

/-- C6: every status row produced by `getClientStatuses` is classified
online exactly when `now − last_seen` is strictly below the 60-second
threshold. -/
theorem getClientStatuses_online_iff (now : Int) (db : DB) (st : ClientStatus)
    (hst : st ∈ getClientStatuses now db) :
    st.isOnline = true ↔ now - st.lastSeen < 60 := by
  simp only [getClientStatuses, List.mem_map] at hst
  obtain ⟨c, -, rfl⟩ := hst
  simp

/-- Two clients, last seen 59 and 60 seconds before the evaluation
instant `100`. -/
def dbStatus : DB := { clients := [mkClient "c1" 41, mkClient "c2" 40],
                       history := [], nextId := 1 }

/-- The status row of the client seen 59 seconds ago. -/
def stOnline : ClientStatus := (getClientStatuses 100 dbStatus).headI

/-- The status row of the client seen exactly 60 seconds ago. -/
def stOffline : ClientStatus := ((getClientStatuses 100 dbStatus).drop 1).headI

/-- Witness for C6: 59 seconds ago is online, exactly 60 seconds ago is
offline. -/
theorem getClientStatuses_online_iff_witness :
    stOnline.isOnline = true ∧ stOffline.isOnline = false :=
  ⟨(getClientStatuses_online_iff 100 dbStatus stOnline (by decide)).mpr (by decide),
   by decide⟩

/-! ## C7: anomaly query -/

/-- C7: with `limit = 0` the anomaly query returns exactly the rows of
the client in the window satisfying `success = false OR latency >
threshold` — a permutation of that filtered set, ordered descending by
timestamp — and a positive limit truncates that same sequence. -/
theorem getAnomalies_spec (now : Int) (cid : String) (th : ℚ) (dur : Int) (l : Int)
    (db : DB) :
    (getAnomaliesRows now cid th dur 0 db).Perm
        (db.history.filter (anomalyPred now cid th dur))
  ∧ List.Pairwise (fun a b : HistoryRow => b.timestamp ≤ a.timestamp)
        (getAnomaliesRows now cid th dur 0 db)
  ∧ (0 < l →
      getAnomaliesRows now cid th dur l db =
        (getAnomaliesRows now cid th dur 0 db).take l.toNat) := by
  refine ⟨?_, ?_, ?_⟩
  · simp only [getAnomaliesRows, gt_iff_lt, lt_irrefl, if_false]
    exact List.perm_insertionSort _ _
  · haveI : IsTotal HistoryRow (fun a b : HistoryRow => b.timestamp ≤ a.timestamp) :=
      ⟨fun a b => le_total _ _⟩
    haveI : IsTrans HistoryRow (fun a b : HistoryRow => b.timestamp ≤ a.timestamp) :=
      ⟨fun a b c h1 h2 => le_trans h2 h1⟩
    simp only [getAnomaliesRows, gt_iff_lt, lt_irrefl, if_false]
    exact List.sorted_insertionSort _ _
  · intro hl
    simp only [getAnomaliesRows, gt_iff_lt, lt_irrefl, if_false, if_pos hl]

/-- Witness for C7: a positive limit of 2 truncates the unlimited
anomaly sequence. -/
theorem getAnomalies_spec_witness :
    getAnomaliesRows 100 "agent-1" 1000 1000 2 dbMix =
      (getAnomaliesRows 100 "agent-1" 1000 1000 0 dbMix).take ((2 : Int).toNat) :=
  (getAnomalies_spec 100 "agent-1" 1000 1000 2 dbMix).2.2 (by decide)

/-! ## C8: retention sweep -/

/-- C8: after one sweep no history row older than the 7-day window
remains, every row at or inside the window survives unchanged (the
surviving history is a sublist of the old one), and the `clients`
relation is untouched. -/
theorem cleanupSweep_spec (now : Int) (db : DB) :
    (∀ h ∈ (cleanupSweep now db).history, ¬ h.timestamp < now - 7 * 86400)
  ∧ (∀ h ∈ db.history, ¬ h.timestamp < now - 7 * 86400 →
        h ∈ (cleanupSweep now db).history)
  ∧ (cleanupSweep now db).history.Sublist db.history
  ∧ (cleanupSweep now db).clients = db.clients := by
  refine ⟨?_, ?_, List.filter_sublist _, rfl⟩
  · intro h hh
    have := (List.mem_filter.mp hh).2
    simpa using this
  · intro h hh hts
    exact List.mem_filter.mpr ⟨hh, by simpa using hts⟩

/-- A store with one history row far beyond the retention window and one
recent row. -/
def dbSweep : DB := { clients := [mkClient "c1" 41],
                      history := [mkRow 1 0 true 50, mkRow 2 999999 true 50],
                      nextId := 3 }

/-- Witness for C8: the recent row survives the sweep, the stale row is
gone, and the clients table is untouched. -/
theorem cleanupSweep_spec_witness :
    mkRow 2 999999 true 50 ∈ (cleanupSweep 1000000 dbSweep).history
  ∧ mkRow 1 0 true 50 ∉ (cleanupSweep 1000000 dbSweep).history
  ∧ (cleanupSweep 1000000 dbSweep).clients = dbSweep.clients :=
  ⟨(cleanupSweep_spec 1000000 dbSweep).2.1 (mkRow 2 999999 true 50) (by decide) (by decide),
   by decide, (cleanupSweep_spec 1000000 dbSweep).2.2.2⟩

/-! ## C9: runtime storage failures -/

/-- Runtime failure behaviour of `calculateSuccessRate` (part_000,
lines 204–219): the Go code checks `err != nil || total == 0` and
returns the plain `0.0` — a query failure (`qfail = true`) is folded
into the same default as "no data" and never reaches the caller. -/
def calculateSuccessRateF (qfail : Bool) (now : Int) (clientID : String) (db : DB) : ℚ :=
  if qfail then 0 else calculateSuccessRate now clientID db

/-- Runtime failure behaviour of `getLastError` (part_000, lines
222–238): any `Scan` error — a genuine storage failure as much as
`sql.ErrNoRows` — yields the sentinel `("", zero time)`. -/
def getLastErrorF (qfail : Bool) (clientID : String) (db : DB) : String × Int :=
  if qfail then ("", 0) else getLastError clientID db

/-- Runtime failure behaviour of `getClientHistory` (part_000, lines
243–251): `if err != nil { return nil, err }` — the failure is returned
to the caller. -/
def getClientHistoryF (qfail : Bool) (now : Int) (clientID : String) (duration : Int)
    (db : DB) : Except Unit (List MonitoringData) :=
  if qfail then Except.error () else Except.ok (getClientHistory now clientID duration db)

/-- Runtime failure behaviour of `getFilteredClientHistory` (part_000,
lines 130–133): the query failure is returned to the caller. -/
def getFilteredClientHistoryF (qfail : Bool) (now : Int) (o : HistoryFilterOptions)
    (db : DB) : Except Unit (List MonitoringData) :=
  if qfail then Except.error () else Except.ok (getFilteredClientHistory now o db)

/-- Runtime failure behaviour of `getAnomalies` (part_000, lines
286–289): the query failure is returned to the caller. -/
def getAnomaliesF (qfail : Bool) (now : Int) (clientID : String) (thresholdMs : ℚ)
    (duration : Int) (limit : Int) (db : DB) : Except Unit (List MonitoringData) :=
  if qfail then Except.error ()
  else Except.ok (getAnomalies now clientID thresholdMs duration limit db)

/-- Runtime failure behaviour of `getClientStatuses` (part_000, lines
154–161): the query failure is returned to the caller. -/
def getClientStatusesF (qfail : Bool) (now : Int) (db : DB) :
    Except Unit (List ClientStatus) :=
  if qfail then Except.error () else Except.ok (getClientStatuses now db)

theorem dbRate_rate_value : calculateSuccessRate 100000 "agent-1" dbRate = 70 := by
  have h1 : ((dbRate.history.filter
      (fun h => h.client_id = "agent-1" && (100000 : Int) - 24 * 3600 < h.timestamp)).filter
        (fun h => h.success)).length = 7 := by decide
  have h2 : (dbRate.history.filter
      (fun h => h.client_id = "agent-1" && (100000 : Int) - 24 * 3600 < h.timestamp)).length
        = 10 := by decide
  simp only [calculateSuccessRate]
  rw [h1, h2]
  norm_num

/-- C9 (counterexample): a storage failure inside
`calculateSuccessRate` or `getLastError` is NOT surfaced to the caller:
on a failing run over a store holding ten rows (seven successes, three
failures for `agent-1`) `calculateSuccessRate` returns the plain default
`0` — the "no data" value, not an error — where the non-failing run
returns `70`; likewise `getLastError` returns the "no error on record"
sentinel `("", 0)` where the non-failing run returns the stored failure
`("timeout", 99010)`.  Both signatures carry no error channel at all. -/
theorem readFailure_absorbed_counterexample :
    calculateSuccessRateF true 100000 "agent-1" dbRate = 0
  ∧ calculateSuccessRateF false 100000 "agent-1" dbRate = 70
  ∧ getLastErrorF true "agent-1" dbRate = ("", 0)
  ∧ getLastErrorF false "agent-1" dbRate = ("timeout", 99010) := by
  refine ⟨rfl, ?_, rfl, by decide⟩
  simpa [calculateSuccessRateF] using dbRate_rate_value

/-- C9 (amended): a runtime query failure in the row-returning read
operations (`getClientHistory`, `getFilteredClientHistory`,
`getAnomalies`, `getClientStatuses`) is returned to the immediate
caller; `calculateSuccessRate` and `getLastError`, whose signatures
have no error channel, instead absorb a storage failure into their
no-data defaults (`0` and `("", zero time)`). -/
theorem readFailure_propagation (now dur : Int) (cid : String) (db : DB) :
    getClientHistoryF true now cid dur db = Except.error ()
  ∧ (∀ o : HistoryFilterOptions, getFilteredClientHistoryF true now o db = Except.error ())
  ∧ (∀ th : ℚ, ∀ l : Int, getAnomaliesF true now cid th dur l db = Except.error ())
  ∧ getClientStatusesF true now db = Except.error ()
  ∧ calculateSuccessRateF true now cid db = 0
  ∧ getLastErrorF true cid db = ("", 0)
  ∧ calculateSuccessRateF false now cid db = calculateSuccessRate now cid db
  ∧ getLastErrorF false cid db = getLastError cid db :=
  ⟨rfl, fun _ => rfl, fun _ _ => rfl, rfl, rfl, rfl, rfl, rfl⟩
